import Mathlib

/-!
Shallow embedding of the job-board backend (Flask/SQLAlchemy) found in
`backend/`: the data model (`models.py`), the route handlers of
`routes/jobs.py`, `routes/admin.py`, `routes/auth.py`, and the
notification rendering in `utils/email.py`.  The relational store is a
record of lists; ORM queries become list traversals; each handler is a
pure function returning the new store together with the HTTP response
(status code and message).  External collaborators (password hashing,
pagination mechanics) are passed as parameters or modelled from their
documented contract.
-/

namespace JobBoard

/-- An HTTP response as observed by the client: status code and the
`message` field of the JSON payload. -/
structure Resp where
  status : Nat
  message : String
deriving Repr, DecidableEq

/-- `users.role` enum from `models.py` (`'user'` is the job seeker role). -/
inductive Role where
  | user
  | employer
  | admin
deriving Repr, DecidableEq

/-- `jobs.status` enum from `models.py`. -/
inductive JobStatus where
  | pending
  | approved
  | rejected
deriving Repr, DecidableEq

/-- `applications.status` enum from `models.py`. -/
inductive AppStatus where
  | pending
  | approved
  | rejected
  | interview
deriving Repr, DecidableEq

/-- Row of the `users` table (`models.py`, class `User`).  Timestamps are
modelled as naturals. -/
structure User where
  id : Nat
  email : String
  password_hash : String
  first_name : String
  last_name : String
  role : Role
  company : Option String
  created_at : Nat
deriving Repr, DecidableEq

/-- Row of the `jobs` table (`models.py`, class `Job`). -/
structure Job where
  id : Nat
  title : String
  description : String
  requirements : String
  benefits : Option String
  location : String
  salary_min : Option Int
  salary_max : Option Int
  skills : List String
  type : String
  experience_level : String
  remote : Bool
  status : JobStatus
  company : String
  employer_id : Nat
  created_at : Nat
deriving Repr, DecidableEq

/-- Row of the `applications` table (`models.py`, class `Application`). -/
structure Application where
  id : Nat
  cover_letter : String
  resume_url : String
  status : AppStatus
  user_id : Nat
  job_id : Nat
  created_at : Nat
deriving Repr, DecidableEq

/-- The relational store: the three tables plus auto-increment counters
for the integer primary keys. -/
structure DB where
  users : List User
  jobs : List Job
  applications : List Application
  nextJobId : Nat
  nextAppId : Nat
deriving Repr, DecidableEq

/-- `User.query.get(user_id)`: primary-key lookup. -/
def findUser (db : DB) (user_id : Nat) : Option User :=
  db.users.find? (fun u => u.id == user_id)

/-- `Job.query.get(job_id)`: primary-key lookup. -/
def findJob (db : DB) (job_id : Nat) : Option Job :=
  db.jobs.find? (fun j => j.id == job_id)

/-- The moderation status of job `job_id` in `db`, when the job exists. -/
def jobStatus (db : DB) (job_id : Nat) : Option JobStatus :=
  (findJob db job_id).map Job.status

/-- `job.applications` relationship: all applications rows for a job. -/
def jobApplications (db : DB) (job_id : Nat) : List Application :=
  db.applications.filter (fun a => a.job_id == job_id)

/-- Python truthiness of an optional string field read with `data.get`:
falsy when the key is missing or the value is the empty string. -/
def falsyStr : Option String → Bool
  | none => true
  | some s => s == ""

/-- Python truthiness of an optional integer field: truthy when present
and nonzero (`0` is falsy in Python). -/
def truthyInt : Option Int → Bool
  | none => false
  | some v => v != 0

/-- Python truthiness of an optional list field: falsy when missing or
empty. -/
def falsyList : Option (List String) → Bool
  | none => true
  | some l => l.isEmpty

/-- `leadMatch needle hay`: `needle` is an initial segment of `hay`. -/
def leadMatch : List Char → List Char → Bool
  | [], _ => true
  | _ :: _, [] => false
  | a :: as, b :: bs => a == b && leadMatch as bs

/-- `subMatch needle hay`: `needle` occurs contiguously inside `hay`. -/
def subMatch (needle : List Char) : List Char → Bool
  | [] => leadMatch needle []
  | b :: bs => leadMatch needle (b :: bs) || subMatch needle bs

/-- SQL `ilike '%s%'`: case-insensitive substring match. -/
def substringCI (needle hay : String) : Bool :=
  subMatch (needle.toList.map Char.toLower) (hay.toList.map Char.toLower)

/-- Python `str.strip()`: drop leading and trailing whitespace.
Implemented over the character list so that it evaluates by kernel
reduction. -/
def pyStrip (s : String) : String :=
  ⟨((s.toList.dropWhile Char.isWhitespace).reverse.dropWhile
      Char.isWhitespace).reverse⟩

/-- The search filter of `get_jobs` (`routes/jobs.py`): `or_` of
case-insensitive substring match on title, description and company, and
exact membership in the JSON `skills` array (`Job.skills.contains`). -/
def matchesSearch (search : String) (j : Job) : Bool :=
  substringCI search j.title || substringCI search j.description ||
    substringCI search j.company || j.skills.contains search

/-- What `query.paginate(...)` hands back: the page slice plus totals
(`items`, `total`, `pages`, `has_next`, `has_prev`). -/
structure Paginated (α : Type) where
  items : List α
  total : Nat
  pages : Nat
  hasNext : Bool
  hasPrev : Bool
deriving Repr, DecidableEq

/-- Modelled from the spec: the pagination collaborator
(`query.paginate(page=..., per_page=..., error_out=False)` of
Flask-SQLAlchemy, external to this repository).  Per the spec's contract
(§6), "page/pageSize below 1 or above cap must be clamped, never cause
an error": with `error_out=False` a page or page size below 1 is clamped
to 1 and a normal slice is returned.  The slice is the standard
`OFFSET (page-1)*per_page LIMIT per_page` window; `pages` is the ceiling
of `total / per_page`. -/
def paginate {α : Type} (l : List α) (page per_page : Int) : Paginated α :=
  let p : Nat := if page < 1 then 1 else page.toNat
  let pp : Nat := if per_page < 1 then 1 else per_page.toNat
  { items := (l.drop ((p - 1) * pp)).take pp
    total := l.length
    pages := (l.length + pp - 1) / pp
    hasNext := decide (p < (l.length + pp - 1) / pp)
    hasPrev := decide (1 < p) }

/-- `order_by(Job.created_at.desc())`: newer (larger timestamp) first. -/
def jobNewer (a b : Job) : Prop := b.created_at ≤ a.created_at

instance : DecidableRel jobNewer :=
  fun a b => Nat.decLe b.created_at a.created_at

instance : IsTotal Job jobNewer :=
  ⟨fun a b => Nat.le_total b.created_at a.created_at⟩

instance : IsTrans Job jobNewer :=
  ⟨fun _ _ _ h₁ h₂ => Nat.le_trans h₂ h₁⟩

/-- `order_by(User.created_at.desc())`: newer (larger timestamp) first. -/
def userNewer (a b : User) : Prop := b.created_at ≤ a.created_at

instance : DecidableRel userNewer :=
  fun a b => Nat.decLe b.created_at a.created_at

instance : IsTotal User userNewer :=
  ⟨fun a b => Nat.le_total b.created_at a.created_at⟩

instance : IsTrans User userNewer :=
  ⟨fun _ _ _ h₁ h₂ => Nat.le_trans h₂ h₁⟩

/-- `GET /api/jobs` (`routes/jobs.py`, `get_jobs`).  Query parameters
`page` and `limit` arrive as optional integers (`request.args.get` with
defaults 1 and 10); `search` and `location` are stripped strings.  The
handler caps `limit` at 50, filters to approved jobs, applies the search
and location filters when nonempty, orders newest-created-first and
paginates with `error_out=False`. -/
def get_jobs (db : DB) (pageArg limitArg : Option Int)
    (searchArg locationArg : String) : Paginated Job :=
  let page := pageArg.getD 1
  let limit := min (limitArg.getD 10) 50
  let search := pyStrip searchArg
  let location := pyStrip locationArg
  let q1 := db.jobs.filter (fun j => j.status == JobStatus.approved)
  let q2 := if search ≠ "" then q1.filter (matchesSearch search) else q1
  let q3 := if location ≠ "" then
    q2.filter (fun j => substringCI location j.location) else q2
  paginate (q3.insertionSort jobNewer) page limit

/-- The body of `to_dict(include_applications=...)` on a `Job`
(`models.py`): the full job record plus either the embedded application
rows or only their count. -/
structure JobDetail where
  job : Job
  applications : Option (List Application)
  applicationCount : Option Nat
deriving Repr, DecidableEq

/-- `GET /api/jobs/<id>` (`routes/jobs.py`, `get_job`).  `ident` is the
result of the optional JWT verification: `none` for an unauthenticated
caller.  Applications are embedded only for an admin or the owning
employer; any existing job is returned regardless of status. -/
def get_job (db : DB) (job_id : Nat) (ident : Option Nat) :
    Except Resp JobDetail :=
  match findJob db job_id with
  | none => .error ⟨404, "Job not found"⟩
  | some job =>
    let include_applications : Bool :=
      match ident with
      | none => false
      | some user_id =>
        match findUser db user_id with
        | none => false
        | some user => user.role == Role.admin || job.employer_id == user_id
    .ok { job := job
          applications :=
            if include_applications then some (jobApplications db job_id)
            else none
          applicationCount :=
            if include_applications then none
            else some (jobApplications db job_id).length }

/-- JSON body of `POST /api/jobs`; each field is `none` when the key is
absent from the request body. -/
structure CreateJobBody where
  title : Option String
  description : Option String
  requirements : Option String
  benefits : Option String
  location : Option String
  salaryMin : Option Int
  salaryMax : Option Int
  skills : Option (List String)
  type : Option String
  experienceLevel : Option String
  remote : Option Bool
deriving Repr, DecidableEq

/-- `POST /api/jobs` (`routes/jobs.py`, `create_job`).  Employer-only;
required fields checked in source order with Python truthiness; the
salary-range check uses Python truthiness on the two bounds (`if
salary_min and salary_max and salary_max < salary_min`); the created row
takes the model's default status `pending` and copies the employer's
company name.  A missing JSON body raises inside the handler and is
caught as a 500.  (The NOT NULL constraint on `jobs.company` is elided:
`user.company` is substituted by `""` when absent.) -/
def create_job (db : DB) (user_id : Nat) (body : Option CreateJobBody)
    (now : Nat) : DB × Resp :=
  match findUser db user_id with
  | none => (db, ⟨403, "Only employers can create jobs"⟩)
  | some user =>
    if user.role != Role.employer then
      (db, ⟨403, "Only employers can create jobs"⟩)
    else match body with
    | none => (db, ⟨500, "Failed to create job"⟩)
    | some data =>
      if falsyStr data.title then (db, ⟨400, "title is required"⟩)
      else if falsyStr data.description then
        (db, ⟨400, "description is required"⟩)
      else if falsyStr data.requirements then
        (db, ⟨400, "requirements is required"⟩)
      else if falsyStr data.location then (db, ⟨400, "location is required"⟩)
      else if falsyList data.skills then (db, ⟨400, "skills is required"⟩)
      else if (data.skills.getD []).length == 0 then
        (db, ⟨400, "At least one skill is required"⟩)
      else if truthyInt data.salaryMin && truthyInt data.salaryMax &&
          decide (data.salaryMax.getD 0 < data.salaryMin.getD 0) then
        (db, ⟨400, "Maximum salary must be greater than minimum salary"⟩)
      else
        let job : Job :=
          { id := db.nextJobId
            title := data.title.getD ""
            description := data.description.getD ""
            requirements := data.requirements.getD ""
            benefits := data.benefits
            location := data.location.getD ""
            salary_min := data.salaryMin
            salary_max := data.salaryMax
            skills := data.skills.getD []
            type := data.type.getD "full-time"
            experience_level := data.experienceLevel.getD "mid"
            remote := data.remote.getD false
            status := JobStatus.pending
            company := user.company.getD ""
            employer_id := user_id
            created_at := now }
        ({ db with jobs := db.jobs ++ [job], nextJobId := db.nextJobId + 1 },
         ⟨201, "Job created successfully and is pending approval"⟩)

/-- JSON body of `PUT /api/jobs/<id>`; a field is `none` when the key is
absent (`if frontend_field in data`). -/
structure UpdateJobBody where
  title : Option String
  description : Option String
  requirements : Option String
  benefits : Option (Option String)
  location : Option String
  salaryMin : Option (Option Int)
  salaryMax : Option (Option Int)
  skills : Option (List String)
  type : Option String
  experienceLevel : Option String
  remote : Option Bool
deriving Repr, DecidableEq

/-- The `setattr` loop over `updatable_fields` in `update_job`: each
field present in the body overwrites the column. -/
def applyJobUpdates (j : Job) (b : UpdateJobBody) : Job :=
  { j with
    title := b.title.getD j.title
    description := b.description.getD j.description
    requirements := b.requirements.getD j.requirements
    benefits := b.benefits.getD j.benefits
    location := b.location.getD j.location
    salary_min := b.salaryMin.getD j.salary_min
    salary_max := b.salaryMax.getD j.salary_max
    skills := b.skills.getD j.skills
    type := b.type.getD j.type
    experience_level := b.experienceLevel.getD j.experience_level
    remote := b.remote.getD j.remote }

/-- The effect of `update_job` on the row whose primary key matches:
apply the present fields (`setattr` loop), then reset the status to
`pending` when it is currently `approved` or `rejected` (`if job.status
in ['approved', 'rejected']`); other rows are untouched. -/
def updRow (data : UpdateJobBody) (job_id : Nat) (j : Job) : Job :=
  if j.id == job_id then
    if (applyJobUpdates j data).status == JobStatus.approved ||
        (applyJobUpdates j data).status == JobStatus.rejected then
      { applyJobUpdates j data with status := JobStatus.pending }
    else applyJobUpdates j data
  else j

/-- `PUT /api/jobs/<id>` (`routes/jobs.py`, `update_job`).  Employer-only
on own jobs; updates the present fields, then resets the status to
`pending` when it was `approved` or `rejected`. -/
def update_job (db : DB) (user_id job_id : Nat)
    (body : Option UpdateJobBody) : DB × Resp :=
  match findUser db user_id with
  | none => (db, ⟨403, "Only employers can update jobs"⟩)
  | some user =>
    if user.role != Role.employer then
      (db, ⟨403, "Only employers can update jobs"⟩)
    else match findJob db job_id with
    | none => (db, ⟨404, "Job not found"⟩)
    | some job =>
      if job.employer_id != user_id then
        (db, ⟨403, "You can only update your own jobs"⟩)
      else match body with
      | none => (db, ⟨500, "Failed to update job"⟩)
      | some data =>
        ({ db with jobs := db.jobs.map (updRow data job_id) },
         ⟨200, "Job updated successfully"⟩)

/-- JSON body of `POST /api/jobs/<id>/apply`. -/
structure ApplyBody where
  coverLetter : Option String
  resume : Option String
deriving Repr, DecidableEq

/-- `POST /api/jobs/<id>/apply` (`routes/jobs.py`, `apply_to_job`).
Checks, in source order: actor is a seeker (`role == 'user'`); the job
exists; the job is `approved`; no existing application for
`(user_id, job_id)`; cover letter and resume both truthy.  On success an
`Application` row with default status `pending` is inserted.  A missing
JSON body raises and is caught as a 500. -/
def apply_to_job (db : DB) (user_id job_id : Nat) (body : Option ApplyBody)
    (now : Nat) : DB × Resp :=
  match findUser db user_id with
  | none => (db, ⟨403, "Only job seekers can apply to jobs"⟩)
  | some user =>
    if user.role != Role.user then
      (db, ⟨403, "Only job seekers can apply to jobs"⟩)
    else match findJob db job_id with
    | none => (db, ⟨404, "Job not found"⟩)
    | some job =>
      if job.status != JobStatus.approved then
        (db, ⟨400, "This job is not available for applications"⟩)
      else if db.applications.any
          (fun a => a.user_id == user_id && a.job_id == job_id) then
        (db, ⟨400, "You have already applied to this job"⟩)
      else match body with
      | none => (db, ⟨500, "Failed to submit application"⟩)
      | some data =>
        if falsyStr data.coverLetter || falsyStr data.resume then
          (db, ⟨400, "Cover letter and resume URL are required"⟩)
        else
          let application : Application :=
            { id := db.nextAppId
              cover_letter := data.coverLetter.getD ""
              resume_url := data.resume.getD ""
              status := AppStatus.pending
              user_id := user_id
              job_id := job_id
              created_at := now }
          ({ db with
              applications := db.applications ++ [application]
              nextAppId := db.nextAppId + 1 },
           ⟨201, "Application submitted successfully"⟩)

/-- `require_admin` (`routes/admin.py`): `some resp` is the early 403
return, `none` means the caller is an admin. -/
def require_admin (db : DB) (user_id : Nat) : Option Resp :=
  match findUser db user_id with
  | none => some ⟨403, "Admin access required"⟩
  | some user =>
    if user.role != Role.admin then some ⟨403, "Admin access required"⟩
    else none

/-- The notification built by `send_job_approval_email`
(`utils/email.py`).  The static HTML of the template is abstracted away;
`rendered_reason` captures exactly the conditional fragment
`{f'<p><strong>Reason:</strong> {reason}</p>' if reason else ''}`: it is
`some text` when the reason paragraph appears in the body with that
text, `none` when the fragment is the empty string (reason `None` or
`''`, and always in the `approved` template, which ignores `reason`). -/
structure ApprovalEmail where
  to_email : String
  first_name : String
  job_title : String
  outcome : String
  rendered_reason : Option String
deriving Repr, DecidableEq

/-- Python truthiness of the `reason` keyword argument (`None` and `''`
are falsy). -/
def reasonTruthy : Option String → Bool
  | none => false
  | some s => s != ""

/-- `send_job_approval_email(email, first_name, job_title, status,
reason=None)` (`utils/email.py`). -/
def send_job_approval_email (email first_name job_title status : String)
    (reason : Option String) : ApprovalEmail :=
  { to_email := email
    first_name := first_name
    job_title := job_title
    outcome := status
    rendered_reason :=
      if status == "approved" then none
      else if reasonTruthy reason then some (reason.getD "")
      else none }

/-- `POST /api/admin/jobs/<id>/approve` (`routes/admin.py`,
`approve_job`).  Admin-only; only a `pending` job transitions, to
`approved`; the employer, when found, is notified. -/
def approve_job (db : DB) (user_id job_id : Nat) :
    DB × Resp × Option ApprovalEmail :=
  match require_admin db user_id with
  | some r => (db, r, none)
  | none =>
    match findJob db job_id with
    | none => (db, ⟨404, "Job not found"⟩, none)
    | some job =>
      if job.status != JobStatus.pending then
        (db, ⟨400, "Job is not pending approval"⟩, none)
      else
        let db' := { db with jobs := db.jobs.map (fun j =>
          if j.id == job_id then { j with status := JobStatus.approved }
          else j) }
        let email := (findUser db job.employer_id).map (fun employer =>
          send_job_approval_email employer.email employer.first_name
            job.title "approved" none)
        (db', ⟨200, "Job approved successfully"⟩, email)

/-- `POST /api/admin/jobs/<id>/reject` (`routes/admin.py`,
`reject_job`).  `body` is the JSON body: `none` when no JSON body was
sent (then `data.get` raises and the handler 500s with a rollback);
`some reasonField` carries the optional `reason` key, which defaults to
`'No reason provided'`.  Only a `pending` job transitions, to
`rejected`; the employer, when found, is notified with the reason
string. -/
def reject_job (db : DB) (user_id job_id : Nat)
    (body : Option (Option String)) : DB × Resp × Option ApprovalEmail :=
  match require_admin db user_id with
  | some r => (db, r, none)
  | none =>
    match findJob db job_id with
    | none => (db, ⟨404, "Job not found"⟩, none)
    | some job =>
      if job.status != JobStatus.pending then
        (db, ⟨400, "Job is not pending approval"⟩, none)
      else match body with
      | none => (db, ⟨500, "Failed to reject job"⟩, none)
      | some reasonField =>
        let rejection_reason := reasonField.getD "No reason provided"
        let db' := { db with jobs := db.jobs.map (fun j =>
          if j.id == job_id then { j with status := JobStatus.rejected }
          else j) }
        let email := (findUser db job.employer_id).map (fun employer =>
          send_job_approval_email employer.email employer.first_name
            job.title "rejected" (some rejection_reason))
        (db', ⟨200, "Job rejected successfully"⟩, email)

/-- `GET /api/admin/users` (`routes/admin.py`, `get_all_users`).
Admin-only; `limit` defaults to 20 and is capped at 100; users are
ordered newest-created-first and paginated with `error_out=False`. -/
def get_all_users (db : DB) (user_id : Nat)
    (pageArg limitArg : Option Int) : Except Resp (Paginated User) :=
  match require_admin db user_id with
  | some r => .error r
  | none =>
    let page := pageArg.getD 1
    let limit := min (limitArg.getD 20) 100
    .ok (paginate (db.users.insertionSort userNewer) page limit)

/-- `POST /api/auth/login` (`routes/auth.py`, `login`).  `verify` is the
external `check_password_hash` capability.  A missing or unknown email
and a wrong password both fall into the same branch. -/
def login (db : DB) (verify : String → String → Bool)
    (email password : Option String) : Except Resp User :=
  if falsyStr email || falsyStr password then
    .error ⟨400, "Email and password are required"⟩
  else
    match db.users.find? (fun u => u.email == email.getD "") with
    | none => .error ⟨401, "Invalid email or password"⟩
    | some user =>
      if verify user.password_hash (password.getD "") then .ok user
      else .error ⟨401, "Invalid email or password"⟩

/-- Number of application rows for a given `(seeker, job)` pair. -/
def pairCount (db : DB) (u j : Nat) : Nat :=
  (db.applications.filter (fun a => a.user_id == u && a.job_id == j)).length

/-! Concrete store used to instantiate the theorems: an admin, an
employer with one approved and one pending job, and a seeker. -/

/-- Concrete admin row. -/
def wAdmin : User :=
  { id := 1, email := "a@x.com", password_hash := "h1", first_name := "A",
    last_name := "D", role := Role.admin, company := none, created_at := 1 }

/-- Concrete employer row. -/
def wEmployer : User :=
  { id := 2, email := "e@x.com", password_hash := "h2", first_name := "E",
    last_name := "M", role := Role.employer, company := some "Tech Corp",
    created_at := 2 }

/-- Concrete seeker row (role `'user'`). -/
def wSeeker : User :=
  { id := 3, email := "s@x.com", password_hash := "h3", first_name := "S",
    last_name := "K", role := Role.user, company := none, created_at := 3 }

/-- Concrete approved job owned by `wEmployer`. -/
def wJobA : Job :=
  { id := 10, title := "DevOps Engineer", description := "work with Docker",
    requirements := "req", benefits := none, location := "Berlin",
    salary_min := some 50, salary_max := some 90, skills := ["Docker"],
    type := "full-time", experience_level := "mid", remote := false,
    status := JobStatus.approved, company := "Tech Corp", employer_id := 2,
    created_at := 5 }

/-- Concrete pending job owned by `wEmployer`. -/
def wJobP : Job :=
  { wJobA with
    id := 11
    status := JobStatus.pending
    created_at := 6
    description := "other text"
    location := "Paris" }

/-- Concrete store holding the three users and the two jobs. -/
def wdb : DB :=
  { users := [wAdmin, wEmployer, wSeeker], jobs := [wJobA, wJobP],
    applications := [], nextJobId := 12, nextAppId := 1 }

/-- Concrete valid application body. -/
def wApplyBody : ApplyBody := { coverLetter := some "cl", resume := some "r" }

/-- Concrete job-creation body whose salary bounds are both present with
`max < min`, the minimum being truthy and the maximum being `0` (falsy
in Python). -/
def wBadSalaryBody : CreateJobBody :=
  { title := some "T", description := some "D", requirements := some "R",
    benefits := none, location := some "L", salaryMin := some 5,
    salaryMax := some 0, skills := some ["k"], type := none,
    experienceLevel := none, remote := none }

/-- Concrete job-creation body with both salary bounds truthy and
`max < min`. -/
def wBadSalaryBody2 : CreateJobBody :=
  { wBadSalaryBody with salaryMin := some 100, salaryMax := some 50 }

/-- Concrete valid job-creation body (salary 50..90). -/
def wGoodBody : CreateJobBody :=
  { wBadSalaryBody with salaryMin := some 50, salaryMax := some 90 }

/-- Concrete job-update body touching only the title. -/
def wUpdateBody : UpdateJobBody :=
  { title := some "T2", description := none, requirements := none,
    benefits := none, location := none, salaryMin := none, salaryMax := none,
    skills := none, type := none, experienceLevel := none, remote := none }

/-! Helper lemmas. -/

theorem find?_map_of_pred {α : Type} (f : α → α) (p : α → Bool)
    (hp : ∀ x, p (f x) = p x) :
    ∀ l : List α, (l.map f).find? p = (l.find? p).map f
  | [] => rfl
  | a :: t => by
    cases h : p a with
    | true => simp [List.find?, hp a, h]
    | false => simp [List.find?, hp a, h, find?_map_of_pred f p hp t]

theorem mem_paginate {α : Type} {x : α} {l : List α} {p pp : Int}
    (h : x ∈ (paginate l p pp).items) : x ∈ l := by
  unfold paginate at h
  exact List.mem_of_mem_drop (List.mem_of_mem_take h)

theorem pairwise_paginate {α : Type} {R : α → α → Prop} {l : List α}
    (h : l.Pairwise R) (p pp : Int) :
    (paginate l p pp).items.Pairwise R := by
  unfold paginate
  exact List.Pairwise.sublist
    ((List.take_sublist _ _).trans (List.drop_sublist _ _)) h

/-- Updating the status of the job with primary key `jid` commutes with
the primary-key lookup. -/
theorem findJob_set_status (db : DB) (jid : Nat) (st : JobStatus) :
    findJob { db with jobs := db.jobs.map (fun j =>
        if j.id == jid then { j with status := st } else j) } jid =
      (findJob db jid).map (fun j =>
        if j.id == jid then { j with status := st } else j) := by
  unfold findJob
  exact find?_map_of_pred _ _ (fun x => by by_cases h : x.id == jid <;> simp [h]) _

/-! Claim theorems. -/

/-- C2: for an admin caller and an existing job, approve and reject on a
job whose status is not `pending` both fail with the `InvalidTransition`
error (400, "Job is not pending approval") and leave the store — hence
the job's status — unchanged; approve on a `pending` job sets the status
to `approved`, and reject on a `pending` job (with a JSON body present)
sets it to `rejected`. -/
theorem claim2_moderation_transitions
    (db : DB) (uid jid : Nat) (adm : User) (job : Job)
    (rbody : Option String)
    (hu : findUser db uid = some adm) (hr : adm.role = Role.admin)
    (hj : findJob db jid = some job) :
    (job.status ≠ JobStatus.pending →
      approve_job db uid jid =
        (db, ⟨400, "Job is not pending approval"⟩, none) ∧
      reject_job db uid jid (some rbody) =
        (db, ⟨400, "Job is not pending approval"⟩, none)) ∧
    (job.status = JobStatus.pending →
      (approve_job db uid jid).2.1 = ⟨200, "Job approved successfully"⟩ ∧
      jobStatus (approve_job db uid jid).1 jid = some JobStatus.approved ∧
      (reject_job db uid jid (some rbody)).2.1 =
        ⟨200, "Job rejected successfully"⟩ ∧
      jobStatus (reject_job db uid jid (some rbody)).1 jid =
        some JobStatus.rejected) := by
  have hadm : require_admin db uid = none := by
    unfold require_admin
    rw [hu]
    simp [hr]
  have hpk : job.id = jid := by
    have hj' := hj
    unfold findJob at hj'
    simpa using List.find?_some hj'
  constructor
  · intro hstat
    have hb : (job.status != JobStatus.pending) = true := by
      simpa [bne_iff_ne] using hstat
    constructor
    · unfold approve_job
      rw [hadm, hj]
      simp [hb]
    · unfold reject_job
      rw [hadm, hj]
      simp [hb]
  · intro hstat
    have hb : (job.status != JobStatus.pending) = false := by
      simp [hstat]
    have ha1 : (approve_job db uid jid).1 =
        { db with jobs := db.jobs.map (fun j =>
            if j.id == jid then { j with status := JobStatus.approved }
            else j) } := by
      unfold approve_job
      rw [hadm, hj]
      simp [hb]
    have hr1 : (reject_job db uid jid (some rbody)).1 =
        { db with jobs := db.jobs.map (fun j =>
            if j.id == jid then { j with status := JobStatus.rejected }
            else j) } := by
      unfold reject_job
      rw [hadm, hj]
      simp [hb]
    refine ⟨?_, ?_, ?_, ?_⟩
    · unfold approve_job
      rw [hadm, hj]
      simp [hb]
    · unfold jobStatus
      rw [ha1, findJob_set_status, hj]
      simp [hpk]
    · unfold reject_job
      rw [hadm, hj]
      simp [hb]
    · unfold jobStatus
      rw [hr1, findJob_set_status, hj]
      simp [hpk]

/-- C2 witness: at the concrete store, approving the approved job 10 is
an invalid transition, while job 11 (pending) approves and rejects. -/
theorem claim2_moderation_transitions_witness :
    approve_job wdb 1 10 = (wdb, ⟨400, "Job is not pending approval"⟩, none) ∧
    jobStatus (approve_job wdb 1 11).1 11 = some JobStatus.approved ∧
    jobStatus (reject_job wdb 1 11 (some none)).1 11 =
      some JobStatus.rejected := by
  have h10 := claim2_moderation_transitions wdb 1 10 wAdmin wJobA none
    rfl rfl rfl
  have h11 := claim2_moderation_transitions wdb 1 11 wAdmin wJobP none
    rfl rfl rfl
  exact ⟨(h10.1 (by decide)).1, (h11.2 rfl).2.1, (h11.2 rfl).2.2.2⟩

/-- C10: the single-job endpoint returns the full job record for every
existing job id, whatever its moderation status and whoever the caller
is (including no caller at all); the embedded applications list is
present exactly when the caller resolves to a user who is an admin or
the owning employer, and an unauthenticated caller gets only the
application count. -/
theorem claim10_job_detail_visibility
    (db : DB) (jid : Nat) (ident : Option Nat) (job : Job)
    (hj : findJob db jid = some job) :
    ∃ d, get_job db jid ident = Except.ok d ∧ d.job = job ∧
      (d.applications.isSome = true ↔
        ∃ uid u, ident = some uid ∧ findUser db uid = some u ∧
          (u.role = Role.admin ∨ job.employer_id = uid)) ∧
      (ident = none → d.applications = none ∧
        d.applicationCount = some (jobApplications db jid).length) := by
  unfold get_job
  rw [hj]
  cases ident with
  | none =>
    refine ⟨_, rfl, rfl, ?_, fun _ => ⟨rfl, rfl⟩⟩
    simp
  | some uid =>
    cases hfu : findUser db uid with
    | none =>
      refine ⟨_, rfl, rfl, ?_, fun h => by cases h⟩
      simp only [hfu]
      constructor
      · intro hb
        simp at hb
      · rintro ⟨uid', u', hid, hfu', _⟩
        cases hid
        rw [hfu] at hfu'
        cases hfu'
    | some u =>
      refine ⟨_, rfl, rfl, ?_, fun h => by cases h⟩
      simp only [hfu]
      by_cases hb : (u.role == Role.admin || (job.employer_id == uid)) = true
      · simp only [hb, if_true, Option.isSome_some, true_iff]
        refine ⟨uid, u, rfl, hfu, ?_⟩
        simpa using hb
      · simp only [hb, if_false, Option.isSome_none, Bool.false_eq_true,
          false_iff]
        rintro ⟨uid', u', hid, hfu', hcond⟩
        cases hid
        rw [hfu] at hfu'
        cases hfu'
        apply hb
        simpa using hcond

/-- C10 witness: at the concrete store, the pending job 11 is returned
in full to an unauthenticated caller without applications, and the
owning employer (id 2) gets the applications embedded. -/
theorem claim10_job_detail_visibility_witness :
    ∃ d, get_job wdb 11 none = Except.ok d ∧ d.job = wJobP ∧
      d.applications = none ∧
      ∃ d', get_job wdb 10 (some 2) = Except.ok d' ∧
        d'.applications.isSome = true := by
  obtain ⟨d, hd, hdj, _, hnone⟩ :=
    claim10_job_detail_visibility wdb 11 none wJobP rfl
  obtain ⟨d', hd', _, hiff, _⟩ :=
    claim10_job_detail_visibility wdb 10 (some 2) wJobA rfl
  exact ⟨d, hd, hdj, (hnone rfl).1,
    d', hd', hiff.mpr ⟨2, wEmployer, rfl, rfl, Or.inr rfl⟩⟩

/-- C6: a login attempt with an unknown email and a login attempt with a
known email but wrong password both produce the identical
`NotAuthenticated` outcome — status 401 with the single message "Invalid
email or password" — so the response reveals which field was wrong to
nobody. -/
theorem claim6_login_no_enumeration
    (db : DB) (verify : String → String → Bool)
    (e₁ p₁ e₂ p₂ : String) (u : User)
    (he₁ : e₁ ≠ "") (hp₁ : p₁ ≠ "") (he₂ : e₂ ≠ "") (hp₂ : p₂ ≠ "")
    (hunknown : db.users.find? (fun x => x.email == e₁) = none)
    (hfound : db.users.find? (fun x => x.email == e₂) = some u)
    (hwrong : verify u.password_hash p₂ = false) :
    login db verify (some e₁) (some p₁) =
      Except.error ⟨401, "Invalid email or password"⟩ ∧
    login db verify (some e₂) (some p₂) =
      Except.error ⟨401, "Invalid email or password"⟩ ∧
    login db verify (some e₁) (some p₁) =
      login db verify (some e₂) (some p₂) := by
  have h1 : login db verify (some e₁) (some p₁) =
      Except.error ⟨401, "Invalid email or password"⟩ := by
    unfold login
    simp only [falsyStr, Option.getD]
    rw [if_neg (by simp [he₁, hp₁])]
    rw [hunknown]
  have h2 : login db verify (some e₂) (some p₂) =
      Except.error ⟨401, "Invalid email or password"⟩ := by
    unfold login
    simp only [falsyStr, Option.getD]
    rw [if_neg (by simp [he₂, hp₂])]
    rw [hfound]
    simp [hwrong]
  exact ⟨h1, h2, h1.trans h2.symm⟩

/-- C6 witness: at the concrete store, an unknown email and the seeker's
email with a wrong password (under the verifier comparing the stored
digest to the plaintext) lead to the same response. -/
theorem claim6_login_no_enumeration_witness :
    login wdb (fun h p => h == p) (some "nobody@x.com") (some "pw") =
      Except.error ⟨401, "Invalid email or password"⟩ ∧
    login wdb (fun h p => h == p) (some "s@x.com") (some "wrong") =
      Except.error ⟨401, "Invalid email or password"⟩ := by
  have h := claim6_login_no_enumeration wdb (fun h p => h == p)
    "nobody@x.com" "pw" "s@x.com" "wrong" wSeeker
    (by decide) (by decide) (by decide) (by decide) (by decide) rfl
    (by decide)
  exact ⟨h.1, h.2.1⟩

/-- C7 counterexample: the admin rejects pending job 11 with a JSON body
that carries no `reason` key, yet the employer's notification still
renders a reason line, with the placeholder text "No reason provided" —
the reason paragraph is not omitted. -/
theorem claim7_rejection_reason_counterexample :
    (reject_job wdb 1 11 (some none)).2.2 = some
      { to_email := "e@x.com", first_name := "E",
        job_title := "DevOps Engineer", outcome := "rejected",
        rendered_reason := some "No reason provided" } ∧
    ((reject_job wdb 1 11 (some none)).2.2.map
      ApprovalEmail.rendered_reason) ≠ some none := by
  exact ⟨rfl, by decide⟩

/-- C7 amended: on a successful rejection the employer's notification
renders the admin-supplied reason verbatim when it is a nonempty string,
renders the placeholder "No reason provided" when no reason was
supplied, and omits the reason line only when the supplied reason is the
empty string. -/
theorem claim7_rejection_reason_rendering
    (db : DB) (uid jid : Nat) (adm : User) (job : Job) (emp : User)
    (reasonField : Option String)
    (hu : findUser db uid = some adm) (hr : adm.role = Role.admin)
    (hj : findJob db jid = some job) (hp : job.status = JobStatus.pending)
    (hemp : findUser db job.employer_id = some emp) :
    (reject_job db uid jid (some reasonField)).2.2 = some
      { to_email := emp.email
        first_name := emp.first_name
        job_title := job.title
        outcome := "rejected"
        rendered_reason :=
          match reasonField with
          | none => some "No reason provided"
          | some r => if r = "" then none else some r } := by
  have hadm : require_admin db uid = none := by
    unfold require_admin
    rw [hu]
    simp [hr]
  have hb : (job.status != JobStatus.pending) = false := by simp [hp]
  unfold reject_job
  rw [hadm, hj]
  cases reasonField with
  | none =>
    simp [hb, hemp, send_job_approval_email, reasonTruthy]
  | some r =>
    by_cases hr' : r = ""
    · simp [hb, hemp, send_job_approval_email, reasonTruthy, hr']
    · simp [hb, hemp, send_job_approval_email, reasonTruthy, hr']

/-- C7 witness: a supplied nonempty reason is rendered verbatim. -/
theorem claim7_rejection_reason_rendering_witness :
    (reject_job wdb 1 11 (some (some "too vague"))).2.2 = some
      { to_email := "e@x.com", first_name := "E",
        job_title := "DevOps Engineer", outcome := "rejected",
        rendered_reason := some "too vague" } := by
  have h := claim7_rejection_reason_rendering wdb 1 11 wAdmin wJobP
    wEmployer (some "too vague") rfl rfl rfl rfl rfl
  rw [h]
  rfl

/-- C8 counterexample: a creation request by the employer with both
salary bounds present (`salaryMin = 5`, `salaryMax = 0`) and maximum
strictly below minimum is not rejected: it returns 201 and appends a Job
row, because Python truthiness treats the bound `0` as absent and skips
the range check. -/
theorem claim8_salary_range_counterexample :
    (create_job wdb 2 (some wBadSalaryBody) 9).2.status = 201 ∧
    (create_job wdb 2 (some wBadSalaryBody) 9).1.jobs.length =
      wdb.jobs.length + 1 ∧
    wBadSalaryBody.salaryMin = some 5 ∧
    wBadSalaryBody.salaryMax = some 0 ∧
    ((0 : Int) < 5) :=
  ⟨rfl, rfl, rfl, rfl, by decide⟩

/-- C8 amended: for an employer request passing the field validations,
creation is rejected with the invalid-salary-range error exactly when
both salary bounds are present AND nonzero AND the maximum is strictly
below the minimum (Python truthiness: a bound equal to 0 is treated as
absent and skips the check); otherwise a Job row is appended carrying
the given bounds verbatim. -/
theorem claim8_salary_range_validation
    (db : DB) (uid now : Nat) (user : User) (data : CreateJobBody)
    (hu : findUser db uid = some user) (hrole : user.role = Role.employer)
    (ht : falsyStr data.title = false)
    (hd : falsyStr data.description = false)
    (hq : falsyStr data.requirements = false)
    (hl : falsyStr data.location = false)
    (hs : falsyList data.skills = false) :
    ((truthyInt data.salaryMin && truthyInt data.salaryMax &&
        decide (data.salaryMax.getD 0 < data.salaryMin.getD 0)) = true →
      create_job db uid (some data) now =
        (db, ⟨400, "Maximum salary must be greater than minimum salary"⟩)) ∧
    ((truthyInt data.salaryMin && truthyInt data.salaryMax &&
        decide (data.salaryMax.getD 0 < data.salaryMin.getD 0)) = false →
      ∃ j, create_job db uid (some data) now =
        ({ db with jobs := db.jobs ++ [j], nextJobId := db.nextJobId + 1 },
         ⟨201, "Job created successfully and is pending approval"⟩) ∧
        j.salary_min = data.salaryMin ∧ j.salary_max = data.salaryMax ∧
        j.status = JobStatus.pending) := by
  have hlen : ((data.skills.getD []).length == 0) = false := by
    cases hsk : data.skills with
    | none => rw [hsk] at hs; simp [falsyList] at hs
    | some l =>
      rw [hsk] at hs
      simp only [falsyList] at hs
      cases l with
      | nil => simp at hs
      | cons a t => simp
  constructor
  · intro hcond
    unfold create_job
    rw [hu]
    simp [hrole, ht, hd, hq, hl, hs, hlen, hcond]
  · intro hcond
    refine ⟨{ id := db.nextJobId
              title := data.title.getD ""
              description := data.description.getD ""
              requirements := data.requirements.getD ""
              benefits := data.benefits
              location := data.location.getD ""
              salary_min := data.salaryMin
              salary_max := data.salaryMax
              skills := data.skills.getD []
              type := data.type.getD "full-time"
              experience_level := data.experienceLevel.getD "mid"
              remote := data.remote.getD false
              status := JobStatus.pending
              company := user.company.getD ""
              employer_id := uid
              created_at := now }, ?_, rfl, rfl, rfl⟩
    unfold create_job
    rw [hu]
    simp [hrole, ht, hd, hq, hl, hs, hlen, hcond]

/-- C8 witness: the truthy out-of-order range (100, 50) is rejected with
the store unchanged, and the body with the falsy bound 0 creates a
pending row with the inverted bounds. -/
theorem claim8_salary_range_validation_witness :
    create_job wdb 2 (some wBadSalaryBody2) 9 =
      (wdb, ⟨400, "Maximum salary must be greater than minimum salary"⟩) ∧
    ∃ j, create_job wdb 2 (some wBadSalaryBody) 9 =
      ({ wdb with jobs := wdb.jobs ++ [j], nextJobId := wdb.nextJobId + 1 },
       ⟨201, "Job created successfully and is pending approval"⟩) ∧
      j.salary_min = some 5 ∧ j.salary_max = some 0 ∧
      j.status = JobStatus.pending := by
  have h2 := claim8_salary_range_validation wdb 2 9 wEmployer wBadSalaryBody2
    rfl rfl rfl rfl rfl rfl rfl
  have h1 := claim8_salary_range_validation wdb 2 9 wEmployer wBadSalaryBody
    rfl rfl rfl rfl rfl rfl rfl
  obtain ⟨j, hj, ha, hb, hc⟩ := h1.2 (by decide)
  exact ⟨h2.1 (by decide), j, hj, ha.trans rfl, hb.trans rfl, hc⟩

/-! Branch lemmas for `apply_to_job`. -/

theorem apply_no_user_eq (db : DB) (u j now : Nat) (body : Option ApplyBody)
    (hu : findUser db u = none) :
    apply_to_job db u j body now =
      (db, ⟨403, "Only job seekers can apply to jobs"⟩) := by
  unfold apply_to_job
  rw [hu]

theorem apply_wrong_role_eq (db : DB) (u j now : Nat)
    (body : Option ApplyBody) (user : User)
    (hu : findUser db u = some user) (hrole : user.role ≠ Role.user) :
    apply_to_job db u j body now =
      (db, ⟨403, "Only job seekers can apply to jobs"⟩) := by
  unfold apply_to_job
  rw [hu]
  simp [hrole]

theorem apply_no_job_eq (db : DB) (u j now : Nat) (body : Option ApplyBody)
    (user : User) (hu : findUser db u = some user)
    (hrole : user.role = Role.user) (hj : findJob db j = none) :
    apply_to_job db u j body now = (db, ⟨404, "Job not found"⟩) := by
  unfold apply_to_job
  rw [hu, hj]
  simp [hrole]

theorem apply_not_approved_eq (db : DB) (u j now : Nat)
    (body : Option ApplyBody) (user : User) (job : Job)
    (hu : findUser db u = some user) (hrole : user.role = Role.user)
    (hj : findJob db j = some job)
    (hst : job.status ≠ JobStatus.approved) :
    apply_to_job db u j body now =
      (db, ⟨400, "This job is not available for applications"⟩) := by
  unfold apply_to_job
  rw [hu, hj]
  simp [hrole, hst]

theorem apply_dup_eq (db : DB) (u j now : Nat) (body : Option ApplyBody)
    (user : User) (job : Job)
    (hu : findUser db u = some user) (hrole : user.role = Role.user)
    (hj : findJob db j = some job) (hst : job.status = JobStatus.approved)
    (hdup : db.applications.any
      (fun a => a.user_id == u && a.job_id == j) = true) :
    apply_to_job db u j body now =
      (db, ⟨400, "You have already applied to this job"⟩) := by
  unfold apply_to_job
  rw [hu, hj]
  simp [hrole, hst, hdup]

theorem apply_no_body_eq (db : DB) (u j now : Nat) (user : User) (job : Job)
    (hu : findUser db u = some user) (hrole : user.role = Role.user)
    (hj : findJob db j = some job) (hst : job.status = JobStatus.approved)
    (hdup : db.applications.any
      (fun a => a.user_id == u && a.job_id == j) = false) :
    apply_to_job db u j none now =
      (db, ⟨500, "Failed to submit application"⟩) := by
  unfold apply_to_job
  rw [hu, hj]
  simp [hrole, hst, hdup]

theorem apply_falsy_eq (db : DB) (u j now : Nat) (data : ApplyBody)
    (user : User) (job : Job)
    (hu : findUser db u = some user) (hrole : user.role = Role.user)
    (hj : findJob db j = some job) (hst : job.status = JobStatus.approved)
    (hdup : db.applications.any
      (fun a => a.user_id == u && a.job_id == j) = false)
    (hfal : (falsyStr data.coverLetter || falsyStr data.resume) = true) :
    apply_to_job db u j (some data) now =
      (db, ⟨400, "Cover letter and resume URL are required"⟩) := by
  unfold apply_to_job
  rw [hu, hj]
  simp [hrole, hst, hdup, hfal]

theorem apply_success_eq (db : DB) (u j now : Nat) (data : ApplyBody)
    (user : User) (job : Job)
    (hu : findUser db u = some user) (hrole : user.role = Role.user)
    (hj : findJob db j = some job) (hst : job.status = JobStatus.approved)
    (hdup : db.applications.any
      (fun a => a.user_id == u && a.job_id == j) = false)
    (hcl : falsyStr data.coverLetter = false)
    (hres : falsyStr data.resume = false) :
    apply_to_job db u j (some data) now =
      ({ db with
          applications := db.applications ++
            [{ id := db.nextAppId
               cover_letter := data.coverLetter.getD ""
               resume_url := data.resume.getD ""
               status := AppStatus.pending
               user_id := u
               job_id := j
               created_at := now }]
          nextAppId := db.nextAppId + 1 },
       ⟨201, "Application submitted successfully"⟩) := by
  unfold apply_to_job
  rw [hu, hj]
  simp [hrole, hst, hdup, hcl, hres]

/-- Any outcome of `apply_to_job` other than 201 leaves the store
untouched. -/
theorem apply_fail_unchanged (db : DB) (u j now : Nat)
    (body : Option ApplyBody)
    (h : (apply_to_job db u j body now).2.status ≠ 201) :
    (apply_to_job db u j body now).1 = db := by
  cases hu : findUser db u with
  | none => rw [apply_no_user_eq db u j now body hu]
  | some user =>
    by_cases hrole : user.role = Role.user
    · cases hj : findJob db j with
      | none => rw [apply_no_job_eq db u j now body user hu hrole hj]
      | some job =>
        by_cases hst : job.status = JobStatus.approved
        · by_cases hdup : db.applications.any
              (fun a => a.user_id == u && a.job_id == j) = true
          · rw [apply_dup_eq db u j now body user job hu hrole hj hst hdup]
          · have hdup' := Bool.eq_false_iff.mpr hdup
            cases body with
            | none =>
              rw [apply_no_body_eq db u j now user job hu hrole hj hst hdup']
            | some data =>
              by_cases hfal :
                  (falsyStr data.coverLetter || falsyStr data.resume) = true
              · rw [apply_falsy_eq db u j now data user job hu hrole hj hst
                  hdup' hfal]
              · exfalso
                apply h
                have hcl : falsyStr data.coverLetter = false := by
                  simp at hfal
                  exact hfal.1
                have hres : falsyStr data.resume = false := by
                  simp at hfal
                  exact hfal.2
                rw [apply_success_eq db u j now data user job hu hrole hj hst
                  hdup' hcl hres]
        · rw [apply_not_approved_eq db u j now body user job hu hrole hj hst]
    · rw [apply_wrong_role_eq db u j now body user hu hrole]

/-- A 201 outcome of `apply_to_job` pins down every precondition. -/
theorem apply_success_inv (db : DB) (u j now : Nat) (body : Option ApplyBody)
    (h : (apply_to_job db u j body now).2.status = 201) :
    ∃ user job data,
      findUser db u = some user ∧ user.role = Role.user ∧
      findJob db j = some job ∧ job.status = JobStatus.approved ∧
      db.applications.any
        (fun a => a.user_id == u && a.job_id == j) = false ∧
      body = some data ∧
      falsyStr data.coverLetter = false ∧ falsyStr data.resume = false := by
  cases hu : findUser db u with
  | none =>
    rw [apply_no_user_eq db u j now body hu] at h
    simp at h
  | some user =>
    by_cases hrole : user.role = Role.user
    · cases hj : findJob db j with
      | none =>
        rw [apply_no_job_eq db u j now body user hu hrole hj] at h
        simp at h
      | some job =>
        by_cases hst : job.status = JobStatus.approved
        · by_cases hdup : db.applications.any
              (fun a => a.user_id == u && a.job_id == j) = true
          · rw [apply_dup_eq db u j now body user job hu hrole hj hst hdup]
              at h
            simp at h
          · have hdup' := Bool.eq_false_iff.mpr hdup
            cases body with
            | none =>
              rw [apply_no_body_eq db u j now user job hu hrole hj hst hdup']
                at h
              simp at h
            | some data =>
              by_cases hfal :
                  (falsyStr data.coverLetter || falsyStr data.resume) = true
              · rw [apply_falsy_eq db u j now data user job hu hrole hj hst
                  hdup' hfal] at h
                simp at h
              · have hcl : falsyStr data.coverLetter = false := by
                  simp at hfal
                  exact hfal.1
                have hres : falsyStr data.resume = false := by
                  simp at hfal
                  exact hfal.2
                exact ⟨user, job, data, rfl, hrole, rfl, hst, hdup', rfl,
                  hcl, hres⟩
        · rw [apply_not_approved_eq db u j now body user job hu hrole hj hst]
            at h
          simp at h
    · rw [apply_wrong_role_eq db u j now body user hu hrole] at h
      simp at h

/-- C1: every `apply_to_job` call preserves the at-most-one-application
invariant for every `(seeker, job)` pair, and after a successful (201)
apply for `(u, j)` any second apply call for the same pair — whatever
its body — returns the duplicate-application conflict (400, "You have
already applied to this job") and leaves the application store exactly
as it was. -/
theorem claim1_apply_uniqueness (db : DB) (u j now now' : Nat)
    (body body' : Option ApplyBody) :
    (∀ a b, pairCount db a b ≤ 1 →
      pairCount (apply_to_job db u j body now).1 a b ≤ 1) ∧
    ((apply_to_job db u j body now).2.status = 201 →
      apply_to_job (apply_to_job db u j body now).1 u j body' now' =
        ((apply_to_job db u j body now).1,
         ⟨400, "You have already applied to this job"⟩)) := by
  by_cases hS : (apply_to_job db u j body now).2.status = 201
  case neg =>
    have hunch := apply_fail_unchanged db u j now body hS
    exact ⟨fun a b hab => by rw [hunch]; exact hab, fun hc => absurd hc hS⟩
  case pos =>
    obtain ⟨user, job, data, hu, hrole, hj, hst, hdup, hbody, hcl, hres⟩ :=
      apply_success_inv db u j now body hS
    subst hbody
    have heq := apply_success_eq db u j now data user job hu hrole hj hst
      hdup hcl hres
    constructor
    · intro a b hab
      rw [heq]
      unfold pairCount at hab ⊢
      simp only [List.filter_append, List.length_append]
      by_cases hab' : ((u == a) && (j == b)) = true
      · have hua : u = a := by
          simp at hab'
          exact hab'.1
        have hjb : j = b := by
          simp at hab'
          exact hab'.2
        subst hua hjb
        have hzero : db.applications.filter
            (fun x => x.user_id == u && x.job_id == j) = [] := by
          rw [List.filter_eq_nil_iff]
          rw [List.any_eq_false] at hdup
          exact hdup
        rw [hzero]
        simp
      · have hone : (List.filter
            (fun x => x.user_id == a && x.job_id == b)
            [({ id := db.nextAppId
                cover_letter := data.coverLetter.getD ""
                resume_url := data.resume.getD ""
                status := AppStatus.pending
                user_id := u
                job_id := j
                created_at := now } : Application)]) = [] := by
          simp only [List.filter, hab']
        rw [hone]
        simpa using hab
    · intro _
      rw [heq]
      refine apply_dup_eq _ u j now' body' user job ?_ hrole ?_ hst ?_
      · exact hu
      · exact hj
      · simp [List.any_append]

/-- C1 witness: at the concrete store a first apply by the seeker to the
approved job 10 succeeds, and the duplicate-conflict equation holds for
a second call. -/
theorem claim1_apply_uniqueness_witness :
    pairCount (apply_to_job wdb 3 10 (some wApplyBody) 7).1 3 10 ≤ 1 ∧
    (apply_to_job wdb 3 10 (some wApplyBody) 7).2.status = 201 ∧
    apply_to_job (apply_to_job wdb 3 10 (some wApplyBody) 7).1 3 10
        (some wApplyBody) 8 =
      ((apply_to_job wdb 3 10 (some wApplyBody) 7).1,
       ⟨400, "You have already applied to this job"⟩) := by
  have h := claim1_apply_uniqueness wdb 3 10 7 8 (some wApplyBody)
    (some wApplyBody)
  exact ⟨h.1 3 10 (by decide), by decide, h.2 (by decide)⟩

/-- C4: the apply operation checks its preconditions in source order —
actor resolves and is a seeker; the job exists; the job is `approved`;
no existing application for the pair; cover letter and resume truthy —
and each failing check is a hard rejection that leaves the store
untouched (each equation returns the original `db`); in particular,
earlier checks take precedence (an actor failure answers 403 whatever
the job looks like) and applying to a non-`approved` job always fails
and never creates an Application row. -/
theorem claim4_apply_precondition_order (db : DB) (u j now : Nat)
    (body : Option ApplyBody) :
    (findUser db u = none →
      apply_to_job db u j body now =
        (db, ⟨403, "Only job seekers can apply to jobs"⟩)) ∧
    (∀ user, findUser db u = some user → user.role ≠ Role.user →
      apply_to_job db u j body now =
        (db, ⟨403, "Only job seekers can apply to jobs"⟩)) ∧
    (∀ user, findUser db u = some user → user.role = Role.user →
      findJob db j = none →
      apply_to_job db u j body now = (db, ⟨404, "Job not found"⟩)) ∧
    (∀ user job, findUser db u = some user → user.role = Role.user →
      findJob db j = some job → job.status ≠ JobStatus.approved →
      apply_to_job db u j body now =
        (db, ⟨400, "This job is not available for applications"⟩)) ∧
    (∀ user job, findUser db u = some user → user.role = Role.user →
      findJob db j = some job → job.status = JobStatus.approved →
      db.applications.any
        (fun a => a.user_id == u && a.job_id == j) = true →
      apply_to_job db u j body now =
        (db, ⟨400, "You have already applied to this job"⟩)) ∧
    (∀ user job data, findUser db u = some user → user.role = Role.user →
      findJob db j = some job → job.status = JobStatus.approved →
      db.applications.any
        (fun a => a.user_id == u && a.job_id == j) = false →
      body = some data →
      (falsyStr data.coverLetter || falsyStr data.resume) = true →
      apply_to_job db u j body now =
        (db, ⟨400, "Cover letter and resume URL are required"⟩)) :=
  ⟨fun hu => apply_no_user_eq db u j now body hu,
   fun user hu hr => apply_wrong_role_eq db u j now body user hu hr,
   fun user hu hr hj => apply_no_job_eq db u j now body user hu hr hj,
   fun user job hu hr hj hst =>
     apply_not_approved_eq db u j now body user job hu hr hj hst,
   fun user job hu hr hj hst hdup =>
     apply_dup_eq db u j now body user job hu hr hj hst hdup,
   fun user job data hu hr hj hst hdup hbody hfal => by
     subst hbody
     exact apply_falsy_eq db u j now data user job hu hr hj hst hdup hfal⟩

/-- C4 witness: at the concrete store, applying to the pending job 11
fails with the not-available error and the store unchanged, and the
employer (a non-seeker) is rejected with 403. -/
theorem claim4_apply_precondition_order_witness :
    apply_to_job wdb 3 11 (some wApplyBody) 7 =
      (wdb, ⟨400, "This job is not available for applications"⟩) ∧
    apply_to_job wdb 2 10 (some wApplyBody) 7 =
      (wdb, ⟨403, "Only job seekers can apply to jobs"⟩) := by
  have h1 := claim4_apply_precondition_order wdb 3 11 7 (some wApplyBody)
  have h2 := claim4_apply_precondition_order wdb 2 10 7 (some wApplyBody)
  exact ⟨h1.2.2.2.1 wSeeker wJobP rfl rfl rfl (by decide),
    h2.2.1 wEmployer rfl (by decide)⟩

/-- Every item the public listing returns comes from the jobs table, is
`approved`, and matches whichever of the two filters was given. -/
theorem mem_get_jobs (db : DB) (pa la : Option Int) (s loc : String)
    (x : Job) (hx : x ∈ (get_jobs db pa la s loc).items) :
    x ∈ db.jobs ∧ x.status = JobStatus.approved ∧
    (pyStrip s ≠ "" → matchesSearch (pyStrip s) x = true) ∧
    (pyStrip loc ≠ "" → substringCI (pyStrip loc) x.location = true) := by
  simp only [get_jobs] at hx
  have h1 := mem_paginate hx
  have h2 := (List.perm_insertionSort jobNewer _).mem_iff.mp h1
  by_cases hloc : pyStrip loc ≠ ""
  · rw [if_pos hloc] at h2
    obtain ⟨h3, hlocx⟩ := List.mem_filter.mp h2
    by_cases hsrch : pyStrip s ≠ ""
    · rw [if_pos hsrch] at h3
      obtain ⟨h4, hsx⟩ := List.mem_filter.mp h3
      obtain ⟨h5, happ⟩ := List.mem_filter.mp h4
      exact ⟨h5, by simpa using happ, fun _ => hsx, fun _ => hlocx⟩
    · rw [if_neg hsrch] at h3
      obtain ⟨h5, happ⟩ := List.mem_filter.mp h3
      exact ⟨h5, by simpa using happ, fun h => absurd h hsrch,
        fun _ => hlocx⟩
  · rw [if_neg hloc] at h2
    by_cases hsrch : pyStrip s ≠ ""
    · rw [if_pos hsrch] at h2
      obtain ⟨h4, hsx⟩ := List.mem_filter.mp h2
      obtain ⟨h5, happ⟩ := List.mem_filter.mp h4
      exact ⟨h5, by simpa using happ, fun _ => hsx, fun h => absurd h hloc⟩
    · rw [if_neg hsrch] at h2
      obtain ⟨h5, happ⟩ := List.mem_filter.mp h2
      exact ⟨h5, by simpa using happ, fun h => absurd h hsrch,
        fun h => absurd h hloc⟩

/-- `create_job` either leaves the store untouched with a non-201
response, or appends exactly one job row that starts `pending`. -/
theorem create_job_cases (db : DB) (uid : Nat) (body : Option CreateJobBody)
    (now : Nat) :
    ((create_job db uid body now).1 = db ∧
      (create_job db uid body now).2.status ≠ 201) ∨
    (∃ jb, jb.status = JobStatus.pending ∧
      (create_job db uid body now).1 =
        { db with jobs := db.jobs ++ [jb], nextJobId := db.nextJobId + 1 } ∧
      (create_job db uid body now).2 =
        ⟨201, "Job created successfully and is pending approval"⟩) := by
  unfold create_job
  repeat' split
  all_goals first
    | exact Or.inl ⟨rfl, by simp⟩
    | exact Or.inr ⟨_, rfl, rfl, rfl⟩

/-- After `update_job` touches the matching row, that row's status is
always `pending`: a decided (`approved`/`rejected`) status is reset and
a `pending` status stays. -/
theorem updRow_status_pending (data : UpdateJobBody) (jid : Nat) (j0 : Job)
    (hid : (j0.id == jid) = true) :
    (updRow data jid j0).status = JobStatus.pending := by
  unfold updRow
  rw [hid]
  cases h : (applyJobUpdates j0 data).status <;> simp [h]

theorem updRow_id (data : UpdateJobBody) (jid : Nat) (j0 : Job) :
    (updRow data jid j0).id = j0.id := by
  unfold updRow
  cases h : (j0.id == jid) with
  | false => simp [h]
  | true =>
    simp only [h, if_true]
    by_cases h2 : ((applyJobUpdates j0 data).status == JobStatus.approved ||
        (applyJobUpdates j0 data).status == JobStatus.rejected) = true
    · rw [if_pos h2]
      rfl
    · rw [if_neg h2]
      rfl

/-- Successful `update_job` by the owning employer maps `updRow` over
the jobs table. -/
theorem update_job_success_eq (db : DB) (uid jid : Nat)
    (data : UpdateJobBody) (user : User) (job : Job)
    (hu : findUser db uid = some user) (hrole : user.role = Role.employer)
    (hj : findJob db jid = some job) (hown : job.employer_id = uid) :
    update_job db uid jid (some data) =
      ({ db with jobs := db.jobs.map (updRow data jid) },
       ⟨200, "Job updated successfully"⟩) := by
  unfold update_job
  rw [hu, hj]
  simp [hrole, hown]

/-- C3: a job successfully created by an employer is appended with
status `pending`; and a successful edit by the owning employer of a job
whose status is `approved` or `rejected` answers 200, leaves the job
`pending`, and the job is absent from the public listing afterwards
(no listed item carries its id, for any paging and filtering). -/
theorem claim3_job_lifecycle :
    (∀ (db : DB) (uid : Nat) (body : Option CreateJobBody) (now : Nat),
      (create_job db uid body now).2.status = 201 →
      ∃ jb, (create_job db uid body now).1.jobs = db.jobs ++ [jb] ∧
        jb.status = JobStatus.pending) ∧
    (∀ (db : DB) (uid jid : Nat) (data : UpdateJobBody)
      (user : User) (job : Job),
      findUser db uid = some user → user.role = Role.employer →
      findJob db jid = some job → job.employer_id = uid →
      (job.status = JobStatus.approved ∨ job.status = JobStatus.rejected) →
      (update_job db uid jid (some data)).2 =
        ⟨200, "Job updated successfully"⟩ ∧
      jobStatus (update_job db uid jid (some data)).1 jid =
        some JobStatus.pending ∧
      ∀ (pa la : Option Int) (s loc : String) (x : Job),
        x ∈ (get_jobs (update_job db uid jid (some data)).1
          pa la s loc).items →
        x.id ≠ jid) := by
  constructor
  · intro db uid body now h
    rcases create_job_cases db uid body now with ⟨_, hne⟩ | ⟨jb, hpend, hdb, _⟩
    · exact absurd h hne
    · exact ⟨jb, by rw [hdb], hpend⟩
  · intro db uid jid data user job hu hrole hj hown _
    have heq := update_job_success_eq db uid jid data user job hu hrole hj
      hown
    have hpk : job.id = jid := by
      have hj' := hj
      unfold findJob at hj'
      simpa using List.find?_some hj'
    have hpred : ∀ x : Job,
        ((updRow data jid x).id == jid) = (x.id == jid) := fun x => by
      rw [updRow_id]
    have hfind : db.jobs.find? (fun j => j.id == jid) = some job := hj
    refine ⟨by rw [heq], ?_, ?_⟩
    · have hgoal : ((db.jobs.map (updRow data jid)).find?
          (fun j => j.id == jid)).map Job.status =
            some JobStatus.pending := by
        rw [find?_map_of_pred (updRow data jid) (fun j => j.id == jid)
          hpred db.jobs, hfind]
        simp [updRow_status_pending data jid job (by simp [hpk])]
      rw [heq]
      exact hgoal
    · intro pa la s loc x hx
      obtain ⟨hmem, happ, _, _⟩ :=
        mem_get_jobs (update_job db uid jid (some data)).1 pa la s loc x hx
      rw [heq] at hmem
      replace hmem : x ∈ db.jobs.map (updRow data jid) := hmem
      intro hxid
      obtain ⟨y, hy, hyx⟩ := List.mem_map.mp hmem
      by_cases hyid : (y.id == jid) = true
      · have hpend : x.status = JobStatus.pending := by
          rw [← hyx]
          exact updRow_status_pending data jid y hyid
        rw [happ] at hpend
        cases hpend
      · have hxy : x.id = y.id := by
          rw [← hyx, updRow_id]
        rw [hxid] at hxy
        exact hyid (by simp [← hxy])

/-- C3 witness: at the concrete store, the employer's valid creation
request appends a pending row, and editing the approved job 10 answers
200 and leaves it pending. -/
theorem claim3_job_lifecycle_witness :
    (create_job wdb 2 (some wGoodBody) 9).2.status = 201 ∧
    (∃ jb, (create_job wdb 2 (some wGoodBody) 9).1.jobs = wdb.jobs ++ [jb] ∧
      jb.status = JobStatus.pending) ∧
    (update_job wdb 2 10 (some wUpdateBody)).2 =
      ⟨200, "Job updated successfully"⟩ ∧
    jobStatus (update_job wdb 2 10 (some wUpdateBody)).1 10 =
      some JobStatus.pending := by
  have hc := claim3_job_lifecycle
  have h1 := hc.1 wdb 2 (some wGoodBody) 9 (by decide)
  have h2 := hc.2 wdb 2 10 wUpdateBody wEmployer wJobA rfl rfl rfl rfl
    (Or.inl rfl)
  exact ⟨by decide, h1, h2.1, h2.2.1⟩

/-- C5: every job the public listing returns is `approved` and, when
both a search term and a location filter are given, satisfies both; the
items are ordered newest-created-first; the slice never exceeds the
requested size capped at 50, or 10 when no size is given; and on the
first page the slice length is exactly the capped size, saturated by the
total number of matches. -/
theorem claim5_public_listing (db : DB) (pa la : Option Int)
    (s loc : String) :
    (∀ x ∈ (get_jobs db pa la s loc).items,
      x.status = JobStatus.approved ∧
      (pyStrip s ≠ "" → pyStrip loc ≠ "" →
        matchesSearch (pyStrip s) x = true ∧
        substringCI (pyStrip loc) x.location = true)) ∧
    List.Sorted jobNewer (get_jobs db pa la s loc).items ∧
    (∀ l : Int, 1 ≤ l →
      (get_jobs db pa (some l) s loc).items.length ≤ (min l 50).toNat) ∧
    ((get_jobs db pa none s loc).items.length ≤ 10) ∧
    (∀ l : Int, 1 ≤ l →
      (get_jobs db (some 1) (some l) s loc).items.length =
        min (min l 50).toNat (get_jobs db (some 1) (some l) s loc).total) := by
  refine ⟨?_, ?_, ?_, ?_, ?_⟩
  · intro x hx
    obtain ⟨_, happ, hs, hl⟩ := mem_get_jobs db pa la s loc x hx
    exact ⟨happ, fun h1 h2 => ⟨hs h1, hl h2⟩⟩
  · simp only [get_jobs]
    exact pairwise_paginate (List.sorted_insertionSort jobNewer _) _ _
  · intro l hl
    have hpp : ¬ (min l 50 < 1) := not_lt.mpr (le_min hl (by norm_num))
    simp only [get_jobs, Option.getD_some]
    unfold paginate
    simp only [List.length_take, if_neg hpp]
    exact Nat.min_le_left _ _
  · simp only [get_jobs, Option.getD_none]
    unfold paginate
    simp only [List.length_take]
    have h10 : (if (min (10 : Int) 50) < 1 then 1
        else (min (10 : Int) 50).toNat) = 10 := by decide
    rw [h10]
    exact Nat.min_le_left _ _
  · intro l hl
    have hpp : ¬ (min l 50 < 1) := not_lt.mpr (le_min hl (by norm_num))
    simp only [get_jobs, Option.getD_some]
    unfold paginate
    simp only [List.length_take, if_neg hpp]
    norm_num

/-- C5 witness: at the concrete store the approved job matches the
"docker" search and the "ber" location filter and is listed; an
oversized requested page size is capped; the listing is sorted. -/
theorem claim5_public_listing_witness :
    wJobA.status = JobStatus.approved ∧
    matchesSearch "docker" wJobA = true ∧
    substringCI "ber" wJobA.location = true ∧
    (get_jobs wdb (some 1) (some 60) "" "").items.length ≤
      ((min (60 : Int) 50).toNat) ∧
    List.Sorted jobNewer (get_jobs wdb (some 1) (some 5) "" "").items := by
  have h := claim5_public_listing wdb (some 1) (some 5) "docker" "ber"
  have hmem : wJobA ∈ (get_jobs wdb (some 1) (some 5) "docker" "ber").items :=
    by decide
  obtain ⟨hst, himp⟩ := h.1 wJobA hmem
  obtain ⟨hs, hl⟩ := himp (by decide) (by decide)
  have h60 := (claim5_public_listing wdb (some 1) (some 60) "" "").2.2.1 60
    (by decide)
  have hsort := (claim5_public_listing wdb (some 1) (some 5) "" "").2.1
  exact ⟨hst, hs, hl, h60, hsort⟩

/-- C9: out-of-range pagination inputs are clamped, never errors: a page
below 1 yields the same listing as page 1, a page size below 1 the same
as size 1, and a size above the cap the same as the cap (50 for the
public job listing, 100 for the admin user listing); and the admin user
listing answers `ok` for every page/size pair. -/
theorem claim9_pagination_clamping
    (db : DB) (pa la : Option Int) (s loc : String) (uid : Nat)
    (adm : User) (p l p2 l2 : Int)
    (hadm : findUser db uid = some adm) (hrole : adm.role = Role.admin) :
    (p < 1 →
      get_jobs db (some p) la s loc = get_jobs db (some 1) la s loc) ∧
    (l < 1 →
      get_jobs db pa (some l) s loc = get_jobs db pa (some 1) s loc) ∧
    (50 < l →
      get_jobs db pa (some l) s loc = get_jobs db pa (some 50) s loc) ∧
    (∃ res, get_all_users db uid (some p2) (some l2) = Except.ok res) ∧
    (p2 < 1 → get_all_users db uid (some p2) (some l2) =
      get_all_users db uid (some 1) (some l2)) ∧
    (l2 < 1 → get_all_users db uid (some p2) (some l2) =
      get_all_users db uid (some p2) (some 1)) ∧
    (100 < l2 → get_all_users db uid (some p2) (some l2) =
      get_all_users db uid (some p2) (some 100)) := by
  have hadm' : require_admin db uid = none := by
    unfold require_admin
    rw [hadm]
    simp [hrole]
  refine ⟨?_, ?_, ?_, ?_, ?_, ?_, ?_⟩
  · intro hp
    have hp1 : (if p < 1 then (1 : Nat) else p.toNat) = 1 := if_pos hp
    simp only [get_jobs, Option.getD_some]
    unfold paginate
    rw [hp1]
    norm_num
  · intro hl
    have hmin : min l 50 < 1 := lt_of_le_of_lt (min_le_left l 50) hl
    have hl1 : (if min l 50 < 1 then (1 : Nat)
        else (min l 50).toNat) = 1 := if_pos hmin
    simp only [get_jobs, Option.getD_some]
    unfold paginate
    rw [hl1]
    norm_num
  · intro hl
    have h1 : min l 50 = 50 := min_eq_right (le_of_lt hl)
    simp only [get_jobs, Option.getD_some]
    rw [h1]
    norm_num
  · unfold get_all_users
    rw [hadm']
    exact ⟨_, rfl⟩
  · intro hp
    have hp1 : (if p2 < 1 then (1 : Nat) else p2.toNat) = 1 := if_pos hp
    unfold get_all_users
    rw [hadm']
    simp only [Option.getD_some]
    unfold paginate
    rw [hp1]
    norm_num
  · intro hl
    have hmin : min l2 100 < 1 := lt_of_le_of_lt (min_le_left l2 100) hl
    have hl1 : (if min l2 100 < 1 then (1 : Nat)
        else (min l2 100).toNat) = 1 := if_pos hmin
    unfold get_all_users
    rw [hadm']
    simp only [Option.getD_some]
    unfold paginate
    rw [hl1]
    norm_num
  · intro hl
    have h1 : min l2 100 = 100 := min_eq_right (le_of_lt hl)
    unfold get_all_users
    rw [hadm']
    simp only [Option.getD_some]
    rw [h1]
    norm_num

/-- C9 witness: page 0 and size 0 requests at the concrete store give
the same slices as page 1 and size 1, and the admin listing with both
out of range answers `ok`. -/
theorem claim9_pagination_clamping_witness :
    get_jobs wdb (some 0) (some 5) "" "" =
      get_jobs wdb (some 1) (some 5) "" "" ∧
    get_jobs wdb (some 1) (some 0) "" "" =
      get_jobs wdb (some 1) (some 1) "" "" ∧
    ∃ res, get_all_users wdb 1 (some 0) (some (-2)) = Except.ok res := by
  have h := claim9_pagination_clamping wdb (some 1) (some 5) "" "" 1 wAdmin
    0 0 0 (-2) rfl rfl
  exact ⟨h.1 (by decide), h.2.1 (by decide), h.2.2.2.1⟩

end JobBoard
